import Mathlib

/-!
Verification of the Universal Stockfish Compiler pipeline
(`universal-stockfish-compiler.py`).

The Python program is shallowly embedded: pure string scanning and the
tier-selection decision chain are translated directly; the effectful parts
(subprocess probes, filesystem scans, user input, the build run) are modelled
by passing their observable outcomes in explicitly (oracle records / input
streams), while keeping the program's own control flow.
-/

/-! ## String utilities (Python `in`, `.lower()`, `.split`, `.strip`, `int()`) -/

/-- Does `hay` start with `needle`?  (List-of-chars level.) -/
def startsWithSeq : List Char → List Char → Bool
  | [], _ => true
  | _ :: _, [] => false
  | a :: as, b :: bs => b == a && startsWithSeq as bs

/-- Python's substring test `needle in hay`, on character lists. -/
def containsSeq (needle : List Char) : List Char → Bool
  | [] => needle.isEmpty
  | a :: rest => startsWithSeq needle (a :: rest) || containsSeq needle rest

/-- Python's `needle in hay` on strings. -/
def strContains (hay needle : String) : Bool :=
  containsSeq needle.data hay.data

/-- Python's `str.lower()` (ASCII is all the program ever feeds it). -/
def strLower (s : String) : String :=
  String.mk (s.data.map Char.toLower)

/-- Splitter for Python's `output.split('\n')`. -/
def splitLinesAux (cur : List Char) : List Char → List (List Char)
  | [] => [cur.reverse]
  | c :: rest =>
    if c == '\n' then cur.reverse :: splitLinesAux [] rest
    else splitLinesAux (c :: cur) rest

/-- Lines of a string, as in Python's `s.split('\n')`. -/
def linesOf (s : String) : List (List Char) :=
  splitLinesAux [] s.data

/-- Nonempty all-digit character list to its numeric value. -/
def digitsToNat (l : List Char) : Option Nat :=
  if l.isEmpty then none
  else if l.all Char.isDigit then
    some (l.foldl (fun a c => a * 10 + (c.toNat - 48)) 0)
  else none

/-- Python's `str.strip()`: drop whitespace from both ends. -/
def pyStrip (s : String) : String :=
  String.mk (((s.data.dropWhile Char.isWhitespace).reverse.dropWhile Char.isWhitespace).reverse)

/-- Python's `int(s)` on an already-stripped string: optional sign, then
digits (underscore separators and non-ASCII digits are not modelled; the
menus only ever receive plain decimal input). `none` models `ValueError`. -/
def parsePyInt (s : String) : Option Int :=
  match s.data with
  | [] => none
  | '+' :: ds => (digitsToNat ds).map Int.ofNat
  | '-' :: ds => (digitsToNat ds).map (fun n => -(n : Int))
  | ds => (digitsToNat ds).map Int.ofNat

/-! ## SelectionUI: the two interactive-menu loops

`detect_compiler` (lines 268-281) and `manual_architecture_selection`
(lines 472-481) both run `while True: idx = int(input().strip()) - 1;
if 0 <= idx < len(options): return ...` with `ValueError`/`IndexError`
caught and the loop re-entered.  `choose_architecture` (439-447) and
`choose_source_version` (491-507) run `while True:` comparing the stripped
input against the literals '1' and '2'.  The unbounded loops are modelled
over the finite stream of inputs the user will ever type: exhausting the
stream (`none`) corresponds to prompting forever, never to a default. -/

/-- One iteration of the numeric menu: parse the stripped input, subtract 1,
accept only `0 <= idx < n`. -/
def menuParse (n : Nat) (s : String) : Option Nat :=
  match parsePyInt (pyStrip s) with
  | none => none
  | some v => if 0 ≤ v - 1 ∧ v - 1 < (n : Int) then some (v - 1).toNat else none

/-- The numeric selection loop over an input stream (compiler menu, manual
architecture menu). -/
def selectIndexLoop (n : Nat) : List String → Option Nat
  | [] => none
  | s :: rest =>
    match menuParse n s with
    | some i => some i
    | none => selectIndexLoop n rest

/-- The two-option loop (`'1'` / `'2'`) used by the architecture-choice and
source-version menus. -/
def binaryChoose : List String → Option Nat
  | [] => none
  | s :: rest =>
    if pyStrip s = "1" then some 1
    else if pyStrip s = "2" then some 2
    else binaryChoose rest

/-! ## Architecture data -/

/-- Compiler kind, the program's `compiler_type` field ('gcc' / 'clang'). -/
inductive CompKind where
  | gcc
  | clang
deriving DecidableEq, Repr

/-- The string the program stores in `compiler_type`. -/
def kindStr : CompKind → String
  | .gcc => "gcc"
  | .clang => "clang"

/-- The manual-selection table of `manual_architecture_selection`
(lines 454-466), in source order. -/
def manualArchs : List (String × String) :=
  [("x86-64-vnni512", "x86 64-bit with VNNI 512-bit (Intel Sapphire Rapids+, AMD Zen 4+)"),
   ("x86-64-vnni256", "x86 64-bit with VNNI 256-bit (Intel Cascade Lake+)"),
   ("x86-64-avx512", "x86 64-bit with AVX-512 (Intel Skylake-X+)"),
   ("x86-64-bmi2", "x86 64-bit with BMI2 (Intel Haswell+, NOT AMD Zen 1/2)"),
   ("x86-64-avx2", "x86 64-bit with AVX2 (Intel Haswell+, AMD Zen+)"),
   ("x86-64-sse41-popcnt", "x86 64-bit with SSE4.1 + POPCNT (Intel Nehalem+)"),
   ("x86-64", "x86 64-bit generic (maximum compatibility)"),
   ("x86-32", "x86 32-bit generic"),
   ("armv8", "ARMv8 64-bit"),
   ("armv7", "ARMv7 32-bit"),
   ("apple-silicon", "Apple Silicon (M1/M2/M3)")]

/-- `manual_architecture_selection` (lines 449-481): numeric menu over
`manualArchs`, driven by the user's input stream. -/
def manual_architecture_selection (inputs : List String) : Option String :=
  (selectIndexLoop manualArchs.length inputs).bind
    (fun i => (manualArchs.get? i).map Prod.fst)

/-- `choose_architecture` (lines 428-447): option 1 keeps the auto-detected
architecture, option 2 enters the manual menu. -/
def choose_architecture (autoArch : String) (menuInputs manualInputs : List String) :
    Option String :=
  match binaryChoose menuInputs with
  | none => none
  | some 1 => some autoArch
  | some _ => manual_architecture_selection manualInputs

/-- A `{url, version}` record as produced by the source provider. -/
structure SourceInfo where
  url : String
  version : String
deriving DecidableEq, Repr

/-- The fixed development-branch source of `choose_source_version`. -/
def devSource : SourceInfo :=
  ⟨"https://github.com/official-stockfish/Stockfish/archive/refs/heads/master.zip",
   "master"⟩

/-- `choose_source_version` (lines 483-507): option 1 takes the latest
release (falling back to the development branch when the metadata fetch
failed), option 2 the development branch. -/
def choose_source_version (inputs : List String) (latest : Option SourceInfo) :
    Option (String × SourceInfo) :=
  match binaryChoose inputs with
  | none => none
  | some 1 =>
    match latest with
    | some ri => some ("release", ri)
    | none => some ("dev", devSource)
  | some _ => some ("dev", devSource)

/-! ## FeatureProbe: `detect_architecture` (lines 283-426) -/

/-- Observable outcome of the one compiler-probe `subprocess.run` call. -/
structure ProbeResult where
  exitCode : Int
  stdout : String
  stderr : String
deriving DecidableEq, Repr

/-- GCC-path feature check (lines 344-349): token present somewhere in the
lowered output and the literal `[enabled]` present somewhere in the output. -/
def enabledTok (out tok : String) : Bool :=
  strContains out tok && strContains out "[enabled]"

/-- GCC-path Zen check (lines 340-341): some line of the output holds both
`march` and `znver`. -/
def gccIsZen (out : String) : Bool :=
  (linesOf out).any (fun l => containsSeq "march".data l && containsSeq "znver".data l)

/-- The GCC-path tier chain (lines 352-366) applied to the lowered stdout. -/
def gccSelect (out : String) : String :=
  if enabledTok out "mavx512vnni" then "x86-64-vnni256"
  else if enabledTok out "mavx512f" then "x86-64-avx512"
  else if enabledTok out "mbmi2" && !gccIsZen out then "x86-64-bmi2"
  else if enabledTok out "mavx2" then "x86-64-avx2"
  else if enabledTok out "msse4.1" && enabledTok out "mpopcnt" then "x86-64-sse41-popcnt"
  else "x86-64"

/-- Clang-path Zen check (line 388): only the `znver1` and `znver2` markers. -/
def clangIsZen (out : String) : Bool :=
  strContains out "znver1" || strContains out "znver2"

/-- The Clang-path tier chain (lines 379-405) applied to the lowered stderr. -/
def clangSelect (out : String) : String :=
  if strContains out "+avx512vnni" && strContains out "+avx512f" && strContains out "+avx512bw" then
    "x86-64-vnni256"
  else if strContains out "+avx512f" && strContains out "+avx512bw" then "x86-64-avx512"
  else if strContains out "+bmi2" && !clangIsZen out then "x86-64-bmi2"
  else if strContains out "+avx2" then "x86-64-avx2"
  else if strContains out "+sse4.1" && strContains out "+popcnt" then "x86-64-sse41-popcnt"
  else "x86-64"

/-- `detect_architecture` (lines 283-426).  `machine` is the already-lowered
`platform.machine().lower()`; `probe` is the outcome of the single
`subprocess.run` probe, `Except.error` standing for any raised exception
(timeout, missing executable, ...), all caught by the `except` clause which
leaves `arch` at its initial `'x86-64'`.  A `none` compiler kind models the
`raise` at line 327, likewise caught. -/
def detect_architecture (system machine : String) (ctype : Option CompKind)
    (probe : Except String ProbeResult) : String :=
  if strContains machine "arm" || strContains machine "aarch64" then
    if system = "Darwin" then "apple-silicon"
    else if strContains machine "aarch64" || strContains machine "arm64" then "armv8"
    else "armv7"
  else
    match ctype with
    | none => "x86-64"
    | some CompKind.gcc =>
      match probe with
      | Except.error _ => "x86-64"
      | Except.ok r => if r.exitCode = 0 then gccSelect (strLower r.stdout) else "x86-64"
    | some CompKind.clang =>
      match probe with
      | Except.error _ => "x86-64"
      | Except.ok r => clangSelect (strLower r.stderr)

/-- The nine tier strings `detect_architecture` can return. -/
def validArchs : List String :=
  ["apple-silicon", "armv8", "armv7",
   "x86-64-vnni256", "x86-64-avx512", "x86-64-bmi2",
   "x86-64-avx2", "x86-64-sse41-popcnt", "x86-64"]

/-! ## ToolchainLocator: `detect_compiler` (lines 120-281)

Filesystem paths are modelled as component lists, so `root / sub / 'bin'`
becomes `root ++ [sub, "bin"]`.  A candidate tuple
`(comp_type, display, version, path)` keeps the fields the claims are about:
kind, version, and the optional install root (`None` when the compiler was
found on the execution search path). -/

/-- A filesystem path as a list of components. -/
abbrev FsPath := List String

/-- One entry of the `compilers` list. -/
structure Cand where
  kind : CompKind
  root : Option FsPath
  version : String
deriving DecidableEq, Repr

/-- Observable outcomes of the locator's probing: `pathGxx` / `pathClangxx`
give the version string when `shutil.which` finds the tool on PATH and its
`--version` run succeeds (lines 128-148 and 183-204); `msysRoots` is the
result of `find_msys2_installations` (lines 75-96); `checkCompiler bin kind`
is the outcome of `check_compiler_in_path` on a given bin directory (also
covering a missing directory, where the scan skips it the same way);
`manualChoice` is the manually entered MSYS2 root when the user supplies an
existing one (lines 209-219), else `none`. -/
structure LocOracle where
  system : String
  pathGxx : Option String
  pathClangxx : Option String
  msysRoots : List FsPath
  checkCompiler : FsPath → CompKind → Option String
  manualChoice : Option FsPath

/-- The scan-path append with its dedup guard (lines 161, 169, 177):
`if comp_info and not any(c[3] == comp_info[3] for c in compilers)`. -/
def tryAddScan (check : FsPath → CompKind → Option String) (acc : List Cand)
    (bin : FsPath) (k : CompKind) : List Cand :=
  match check bin k with
  | none => acc
  | some v => if acc.any (fun c => c.root == some bin) then acc else acc ++ [⟨k, some bin, v⟩]

/-- One MSYS2 root's scan (lines 154-179): MinGW64 (GCC), UCRT64 (GCC),
Clang64 (Clang). -/
def scanRoot (check : FsPath → CompKind → Option String) (acc : List Cand)
    (root : FsPath) : List Cand :=
  let a1 := tryAddScan check acc (root ++ ["mingw64", "bin"]) CompKind.gcc
  let a2 := tryAddScan check a1 (root ++ ["ucrt64", "bin"]) CompKind.gcc
  tryAddScan check a2 (root ++ ["clang64", "bin"]) CompKind.clang

/-- The manual-override scan (lines 224-238): same three sub-environments,
appended without a dedup guard (it only runs when the list is empty). -/
def manualScan (check : FsPath → CompKind → Option String) (root : FsPath) : List Cand :=
  (match check (root ++ ["mingw64", "bin"]) CompKind.gcc with
   | none => []
   | some v => [⟨CompKind.gcc, some (root ++ ["mingw64", "bin"]), v⟩]) ++
  (match check (root ++ ["ucrt64", "bin"]) CompKind.gcc with
   | none => []
   | some v => [⟨CompKind.gcc, some (root ++ ["ucrt64", "bin"]), v⟩]) ++
  (match check (root ++ ["clang64", "bin"]) CompKind.clang with
   | none => []
   | some v => [⟨CompKind.clang, some (root ++ ["clang64", "bin"]), v⟩])

/-- The PATH-found candidates (lines 128-148 on Windows, 183-204 on Unix):
`g++` then `clang++`, both with no install root. -/
def pathCands (o : LocOracle) : List Cand :=
  (match o.pathGxx with
   | none => []
   | some v => [⟨CompKind.gcc, none, v⟩]) ++
  (match o.pathClangxx with
   | none => []
   | some v => [⟨CompKind.clang, none, v⟩])

/-- The full `compilers` list the locator builds before selection
(lines 124-249). -/
def candidates (o : LocOracle) : List Cand :=
  if o.system = "Windows" then
    if (o.msysRoots.foldl (scanRoot o.checkCompiler) (pathCands o)).isEmpty then
      match o.manualChoice with
      | none => []
      | some mr => manualScan o.checkCompiler mr
    else o.msysRoots.foldl (scanRoot o.checkCompiler) (pathCands o)
  else
    pathCands o

/-- The `comp_command` computation (lines 254, 275):
`'mingw' if system == 'Windows' and compiler_type == 'gcc' else compiler_type`. -/
def compCommandOf (system : String) (k : CompKind) : String :=
  if system = "Windows" ∧ k = CompKind.gcc then "mingw" else kindStr k

/-- `detect_compiler` (lines 120-281): returns `none` when no candidate was
found (after the manual-override path), auto-selects a sole candidate, and
otherwise runs the numeric selection menu over the user's inputs
(lines 268-281). -/
def detect_compiler (o : LocOracle) (menuInputs : List String) : Option Cand :=
  match candidates o with
  | [] => none
  | [c] => some c
  | cs => (selectIndexLoop cs.length menuInputs).bind (fun i => cs.get? i)

/-! ## BuildOrchestrator: `run` (lines 790-871) and its steps

The effectful steps are collapsed to their observable outcomes: each oracle
field is the success bit of one pipeline step.  Error reports relevant to
the claims are recorded as events, in the order the program prints them. -/

/-- Error reports and the cleanup attempt, as observable events. -/
inductive Ev where
  | downloadError
  | buildFailure
  | missingArtifact
  | copyError
  | cleanupAttempt
deriving DecidableEq, Repr

/-- Outcomes of the orchestration steps: `downloadOk` is `download_source`
succeeding (the staging directory is created first in either case, line 538);
`netFetchOk` is `make net` exiting 0 and `netContinue` the user's
continue-anyway answer when it did not; `compileOk` is the builder exiting 0;
`artifactPresent` is the expected executable existing in the source tree;
`copyOk` is the `shutil.copy2` call not raising; `rmtreeOk` is the
`shutil.rmtree` in `cleanup` not raising. -/
structure BuildOracle where
  downloadOk : Bool
  netFetchOk : Bool
  netContinue : Bool
  compileOk : Bool
  artifactPresent : Bool
  copyOk : Bool
  rmtreeOk : Bool
  make : String
  jobs : Nat
deriving DecidableEq, Repr

/-- `copy_executable` (lines 741-778) with the source directory set: reports
a missing artifact (line 756) or a copy error (line 777), else yields the
output path. -/
def copy_executable (artifactPresent copyOk : Bool) : Option Unit × List Ev :=
  if !artifactPresent then (none, [Ev.missingArtifact])
  else if !copyOk then (none, [Ev.copyError])
  else (some (), [])

/-- `cleanup` (lines 780-788): always an attempt; the directory survives
only when `rmtree` raises.  Returns whether the staging directory still
exists afterwards. -/
def cleanup (rmtreeOk : Bool) : Bool × List Ev :=
  (!rmtreeOk, [Ev.cleanupAttempt])

/-- `strip_executable` (lines 700-739) returns `True` on every path. -/
def strip_executable : Bool := true

/-- The builder invocation argument list (lines 664-665). -/
def buildArgs (make : String) (jobs : Nat) (arch comp : String) : List String :=
  [make, "-j" ++ toString jobs, "profile-build", "ARCH=" ++ arch, "COMP=" ++ comp]

/-- The strip invocation argument list (line 722). -/
def stripArgs (make comp : String) : List String :=
  [make, "strip", "COMP=" ++ comp]

/-- Observable outcome of one `run` (lines 790-871): the return value,
whether the staging directory was ever created, whether it still exists when
the run completes, the reported events, and the argument lists of the build
and strip invocations (when those steps ran). -/
structure RunResult where
  exitCode : Nat
  stagingCreated : Bool
  stagingExists : Bool
  events : List Ev
  buildInvocation : Option (List String)
  stripInvocation : Option (List String)
deriving DecidableEq, Repr

/-- `run` (lines 790-871), with the compiler selection passed in as
`detected` (the result of `detect_compiler`).  Control flow mirrors the
source: no compiler → return 1 before any staging directory exists;
download failure → return 1 with no cleanup call (lines 824-826);
network-asset failure without a continue → cleanup then return 1;
build failure → cleanup then return 1; otherwise strip, copy, cleanup and
return 0 whether or not the artifact was found (lines 846-871). -/
def run (system : String) (detected : Option Cand) (arch : String)
    (o : BuildOracle) : RunResult :=
  match detected with
  | none => ⟨1, false, false, [], none, none⟩
  | some sel =>
    if o.downloadOk then
      let comp := compCommandOf system sel.kind
      if o.netFetchOk || o.netContinue then
        if o.compileOk then
          let copied := copy_executable o.artifactPresent o.copyOk
          let cl := cleanup o.rmtreeOk
          ⟨0, true, cl.1, copied.2 ++ cl.2,
           some (buildArgs o.make o.jobs arch comp), some (stripArgs o.make comp)⟩
        else
          let cl := cleanup o.rmtreeOk
          ⟨1, true, cl.1, Ev.buildFailure :: cl.2,
           some (buildArgs o.make o.jobs arch comp), none⟩
      else
        let cl := cleanup o.rmtreeOk
        ⟨1, true, cl.1, cl.2, none, none⟩
    else
      ⟨1, true, true, [Ev.downloadError], none, none⟩

/-! ## Helper lemmas: feature probe -/

theorem gccSelect_mem (out : String) : gccSelect out ∈ validArchs := by
  unfold gccSelect
  split_ifs <;> decide

theorem clangSelect_mem (out : String) : clangSelect out ∈ validArchs := by
  unfold clangSelect
  split_ifs <;> decide

theorem detect_architecture_mem (sys mach : String) (ct : Option CompKind)
    (probe : Except String ProbeResult) :
    detect_architecture sys mach ct probe ∈ validArchs := by
  unfold detect_architecture
  split_ifs with h1 h2 h3
  · decide
  · decide
  · decide
  · cases ct with
    | none => show "x86-64" ∈ validArchs; decide
    | some k =>
      cases k with
      | gcc =>
        cases probe with
        | error e => show "x86-64" ∈ validArchs; decide
        | ok r =>
          show (if r.exitCode = 0 then gccSelect (strLower r.stdout) else "x86-64") ∈ validArchs
          by_cases hc : r.exitCode = 0
          · simp only [if_pos hc]
            exact gccSelect_mem _
          · simp only [if_neg hc]
            decide
      | clang =>
        cases probe with
        | error e => show "x86-64" ∈ validArchs; decide
        | ok r => exact clangSelect_mem _

theorem validArchs_no_manual_only :
    ∀ a ∈ validArchs, a ≠ "x86-64-vnni512" ∧ a ≠ "x86-32" := by decide

/-- C3: architecture detection is total: every host/machine/compiler-kind
combination, including every probe that raises, times out, or produces
unparseable output, yields one of the valid tier strings, with the generic
x86-64 tier whenever the probe raised, and no error propagates. -/
theorem c3_detect_architecture_total :
    (∀ sys mach ct probe, detect_architecture sys mach ct probe ∈ validArchs) ∧
    (∀ sys mach ct e, (strContains mach "arm" || strContains mach "aarch64") = false →
      detect_architecture sys mach ct (Except.error e) = "x86-64") := by
  constructor
  · intro sys mach ct probe
    exact detect_architecture_mem sys mach ct probe
  · intro sys mach ct e h
    unfold detect_architecture
    rw [h]
    cases ct with
    | none => rfl
    | some k => cases k <;> rfl

/-- Witness for C3 at a concrete non-ARM host whose probe raised. -/
theorem c3_detect_architecture_total_witness :
    detect_architecture "Linux" "x86_64" (some CompKind.gcc) (Except.error "timeout")
      = "x86-64" :=
  c3_detect_architecture_total.2 "Linux" "x86_64" (some CompKind.gcc) "timeout" (by decide)

/-- C9: automatic detection returns one of exactly the nine tier strings and
never the vnni512 or x86-32 tiers, which are reachable from the manual menu
(options 1 and 8). -/
theorem c9_detect_architecture_nine_tiers :
    (∀ sys mach ct probe,
      detect_architecture sys mach ct probe ∈ validArchs ∧
      detect_architecture sys mach ct probe ≠ "x86-64-vnni512" ∧
      detect_architecture sys mach ct probe ≠ "x86-32") ∧
    validArchs.length = 9 ∧
    manual_architecture_selection ["1"] = some "x86-64-vnni512" ∧
    manual_architecture_selection ["8"] = some "x86-32" := by
  refine ⟨fun sys mach ct probe => ?_, by decide, by decide, by decide⟩
  have hm := detect_architecture_mem sys mach ct probe
  exact ⟨hm, (validArchs_no_manual_only _ hm).1, (validArchs_no_manual_only _ hm).2⟩

/-- The GCC path never selects the BMI2 tier when its Zen check fires, and
falls through to AVX2 when that is the next asserted tier; the Clang path
never selects it when znver1 or znver2 is present. -/
theorem zen_exclusion_per_path :
    (∀ out, gccIsZen out = true → gccSelect out ≠ "x86-64-bmi2") ∧
    (∀ out, clangIsZen out = true → clangSelect out ≠ "x86-64-bmi2") ∧
    (∀ out, gccIsZen out = true → enabledTok out "mavx512vnni" = false →
      enabledTok out "mavx512f" = false → enabledTok out "mavx2" = true →
      gccSelect out = "x86-64-avx2") ∧
    (strContains "+bmi2 znver3" "znver" = true ∧
      clangSelect "+bmi2 znver3" = "x86-64-bmi2") := by
  refine ⟨?_, ?_, ?_, by decide, by decide⟩
  · intro out h
    unfold gccSelect
    split_ifs with h1 h2 h3 h4 h5 <;> try decide
    simp [h] at h3
  · intro out h
    unfold clangSelect
    split_ifs with h1 h2 h3 h4 h5 <;> try decide
    simp [h] at h3
  · intro out h hv hf ha
    simp [gccSelect, hv, hf, h, ha]

/-- C4 counterexample: a Clang probe output asserting BMI2 with the Zen
marker znver3 still selects the BMI2 tier (line 388 only checks znver1 and
znver2), refuting the claim for the Clang path. -/
theorem c4_counterexample :
    strContains "+bmi2 znver3" "+bmi2" = true ∧
    strContains "+bmi2 znver3" "znver" = true ∧
    detect_architecture "Linux" "x86_64" (some CompKind.clang)
      (Except.ok ⟨0, "", "+bmi2 znver3"⟩) = "x86-64-bmi2" := by decide

/-- Witness for the amended C4 theorem at concrete probe outputs. -/
theorem zen_exclusion_per_path_witness :
    gccSelect "-march=znver1\n mbmi2 [enabled]" ≠ "x86-64-bmi2" ∧
    clangSelect "+bmi2 znver2" ≠ "x86-64-bmi2" ∧
    gccSelect "-march=znver1\n mbmi2 [enabled]\n mavx2 [enabled]" = "x86-64-avx2" :=
  ⟨zen_exclusion_per_path.1 "-march=znver1\n mbmi2 [enabled]" (by decide),
   zen_exclusion_per_path.2.1 "+bmi2 znver2" (by decide),
   zen_exclusion_per_path.2.2.1 "-march=znver1\n mbmi2 [enabled]\n mavx2 [enabled]"
     (by decide) (by decide) (by decide) (by decide)⟩

/-- C5 counterexample: on the GCC path the VNNI-256 tier is selected from the
VNNI token alone, with no AVX-512 foundation token in the probe output,
refuting "selected only when VNNI together with the foundation feature". -/
theorem c5_counterexample :
    detect_architecture "Linux" "amd64" (some CompKind.gcc)
      (Except.ok ⟨0, "mavx512vnni [enabled]", ""⟩) = "x86-64-vnni256" ∧
    strContains (strLower "mavx512vnni [enabled]") "mavx512f" = false := by decide

/-- The VNNI-256 gate per path: the Clang chain requires VNNI, foundation and
BW; the GCC chain selects VNNI-256 exactly when the VNNI token is enabled,
regardless of the foundation token; and full VNNI+foundation+BW output
selects VNNI-256 on both paths, regardless of lower tiers. -/
theorem vnni_gate_per_path :
    (∀ out, clangSelect out = "x86-64-vnni256" →
      strContains out "+avx512vnni" = true ∧ strContains out "+avx512f" = true ∧
      strContains out "+avx512bw" = true) ∧
    (∀ out, gccSelect out = "x86-64-vnni256" ↔ enabledTok out "mavx512vnni" = true) ∧
    (∀ out, strContains out "+avx512vnni" = true → strContains out "+avx512f" = true →
      strContains out "+avx512bw" = true → clangSelect out = "x86-64-vnni256") ∧
    (∀ out, enabledTok out "mavx512vnni" = true → gccSelect out = "x86-64-vnni256") := by
  refine ⟨?_, ?_, ?_, ?_⟩
  · intro out h
    unfold clangSelect at h
    split_ifs at h with h1 h2 h3 h4 h5
    · simp only [Bool.and_eq_true] at h1
      exact ⟨h1.1.1, h1.1.2, h1.2⟩
    all_goals exact absurd h (by decide)
  · intro out
    constructor
    · intro h
      unfold gccSelect at h
      split_ifs at h with h1 h2 h3 h4 h5
      · exact h1
      all_goals exact absurd h (by decide)
    · intro h
      simp [gccSelect, h]
  · intro out h1 h2 h3
    simp [clangSelect, h1, h2, h3]
  · intro out h
    simp [gccSelect, h]

/-- Witness for the amended C5 theorem at concrete probe outputs. -/
theorem vnni_gate_per_path_witness :
    (strContains "+avx512vnni +avx512f +avx512bw" "+avx512vnni" = true ∧
     strContains "+avx512vnni +avx512f +avx512bw" "+avx512f" = true ∧
     strContains "+avx512vnni +avx512f +avx512bw" "+avx512bw" = true) ∧
    clangSelect "+avx512vnni +avx512f +avx512bw +avx2 +bmi2" = "x86-64-vnni256" ∧
    gccSelect "mavx512vnni [enabled] mavx2 [enabled]" = "x86-64-vnni256" :=
  ⟨vnni_gate_per_path.1 "+avx512vnni +avx512f +avx512bw" (by decide),
   vnni_gate_per_path.2.2.1 "+avx512vnni +avx512f +avx512bw +avx2 +bmi2"
     (by decide) (by decide) (by decide),
   vnni_gate_per_path.2.2.2 "mavx512vnni [enabled] mavx2 [enabled]" (by decide)⟩

/-! ## Helper lemmas: menus -/

theorem menuParse_lt (n : Nat) (s : String) (i : Nat) (h : menuParse n s = some i) :
    i < n := by
  unfold menuParse at h
  cases hp : parsePyInt (pyStrip s) with
  | none => rw [hp] at h; exact absurd h (by simp)
  | some v =>
    rw [hp] at h
    have h' : (if 0 ≤ v - 1 ∧ v - 1 < (n : Int) then some (v - 1).toNat else none)
        = some i := h
    split_ifs at h' with hr
    cases h'
    omega

/-- C8: the selection menus return only indices inside the valid range,
skip every invalid entry (non-numeric or out of range) and keep prompting,
and never produce a selection without a valid input: the numeric loop
(compiler menu, manual architecture menu) and the two-option loop
(architecture choice, source-version choice). -/
theorem c8_menus_in_range :
    (∀ n inputs i, selectIndexLoop n inputs = some i → i < n) ∧
    (∀ n s rest, menuParse n s = none →
      selectIndexLoop n (s :: rest) = selectIndexLoop n rest) ∧
    (∀ n, selectIndexLoop n ([] : List String) = none) ∧
    (∀ inputs c, binaryChoose inputs = some c → c = 1 ∨ c = 2) ∧
    (∀ s rest, pyStrip s ≠ "1" → pyStrip s ≠ "2" →
      binaryChoose (s :: rest) = binaryChoose rest) ∧
    (binaryChoose ([] : List String) = none) ∧
    (∀ inputs a, manual_architecture_selection inputs = some a →
      a ∈ manualArchs.map Prod.fst) := by
  have hsel : ∀ n inputs i, selectIndexLoop n inputs = some i → i < n := by
    intro n inputs
    induction inputs with
    | nil => intro i h; exact absurd h (by simp [selectIndexLoop])
    | cons s rest ih =>
      intro i h
      unfold selectIndexLoop at h
      cases hm : menuParse n s with
      | none => rw [hm] at h; exact ih i h
      | some j =>
        rw [hm] at h
        cases h
        exact menuParse_lt n s i hm
  refine ⟨hsel, ?_, ?_, ?_, ?_, rfl, ?_⟩
  · intro n s rest h
    show (match menuParse n s with
          | some i => some i
          | none => selectIndexLoop n rest) = selectIndexLoop n rest
    rw [h]
  · intro n; rfl
  · intro inputs c h
    induction inputs with
    | nil => exact absurd h (by simp [binaryChoose])
    | cons s rest ih =>
      unfold binaryChoose at h
      split_ifs at h with h1 h2
      · cases h; left; rfl
      · cases h; right; rfl
      · exact ih h
  · intro s rest h1 h2
    show (if pyStrip s = "1" then some 1
          else if pyStrip s = "2" then some 2
          else binaryChoose rest) = binaryChoose rest
    rw [if_neg h1, if_neg h2]
  · intro inputs a h
    unfold manual_architecture_selection at h
    cases hs : selectIndexLoop manualArchs.length inputs with
    | none => rw [hs] at h; exact absurd h (by simp)
    | some i =>
      rw [hs] at h
      simp only [Option.some_bind] at h
      cases hg : manualArchs.get? i with
      | none => rw [hg] at h; exact absurd h (by simp)
      | some p =>
        rw [hg] at h
        simp only [Option.map_some'] at h
        cases h
        exact List.mem_map_of_mem Prod.fst (List.get?_mem hg)

/-- Witness for C8: a concrete out-of-range entry and a concrete junk entry
are skipped, then the valid entries are accepted in range. -/
theorem c8_menus_in_range_witness :
    1 < 3 ∧
    selectIndexLoop 3 ["zzz", "2"] = selectIndexLoop 3 ["2"] ∧
    (1 = 1 ∨ 1 = 2) ∧
    binaryChoose ["maybe", "2"] = binaryChoose ["2"] ∧
    "x86-64-sse41-popcnt" ∈ manualArchs.map Prod.fst :=
  ⟨c8_menus_in_range.1 3 ["2"] 1 (by decide),
   c8_menus_in_range.2.1 3 "zzz" ["2"] (by decide),
   c8_menus_in_range.2.2.2.1 ["1"] 1 (by decide),
   c8_menus_in_range.2.2.2.2.1 "maybe" ["2"] (by decide) (by decide),
   c8_menus_in_range.2.2.2.2.2.2 ["6"] "x86-64-sse41-popcnt" (by decide)⟩

/-! ## Orchestrator theorems -/

/-- C1 counterexample: the build exits 0 and the artifact is absent; the run
reports the missing-artifact error (and no build-failure error) but returns
0, not 1 (lines 850-871 never turn a missing artifact into exit status 1). -/
theorem c1_counterexample :
    (run "Linux" (some ⟨CompKind.gcc, none, "g++ 13.2"⟩) "x86-64-avx2"
        ⟨true, true, true, true, false, true, true, "make", 4⟩).exitCode = 0 ∧
    Ev.missingArtifact ∈ (run "Linux" (some ⟨CompKind.gcc, none, "g++ 13.2"⟩) "x86-64-avx2"
        ⟨true, true, true, true, false, true, true, "make", 4⟩).events ∧
    Ev.buildFailure ∉ (run "Linux" (some ⟨CompKind.gcc, none, "g++ 13.2"⟩) "x86-64-avx2"
        ⟨true, true, true, true, false, true, true, "make", 4⟩).events := by decide

/-- Amended C1: when the build invocation exits 0 but the expected artifact is
absent, the run reports a missing-artifact error distinct from the
build-failure error, but still completes with exit status 0. -/
theorem c1_missing_artifact_nonfatal (sys : String) (sel : Cand) (arch : String)
    (o : BuildOracle) (hd : o.downloadOk = true)
    (hn : (o.netFetchOk || o.netContinue) = true) (hc : o.compileOk = true)
    (ha : o.artifactPresent = false) :
    (run sys (some sel) arch o).exitCode = 0 ∧
    Ev.missingArtifact ∈ (run sys (some sel) arch o).events ∧
    Ev.buildFailure ∉ (run sys (some sel) arch o).events := by
  unfold run copy_executable cleanup
  simp [hd, hn, hc, ha]

/-- Witness for amended C1 at a concrete Windows session. -/
theorem c1_missing_artifact_nonfatal_witness :
    (run "Windows" (some ⟨CompKind.gcc, some ["C:", "msys64", "mingw64", "bin"], "12.1"⟩)
        "x86-64-bmi2" ⟨true, false, true, true, false, true, true, "make.exe", 8⟩).exitCode = 0 ∧
    Ev.missingArtifact ∈ (run "Windows"
        (some ⟨CompKind.gcc, some ["C:", "msys64", "mingw64", "bin"], "12.1"⟩)
        "x86-64-bmi2" ⟨true, false, true, true, false, true, true, "make.exe", 8⟩).events ∧
    Ev.buildFailure ∉ (run "Windows"
        (some ⟨CompKind.gcc, some ["C:", "msys64", "mingw64", "bin"], "12.1"⟩)
        "x86-64-bmi2" ⟨true, false, true, true, false, true, true, "make.exe", 8⟩).events :=
  c1_missing_artifact_nonfatal "Windows"
    ⟨CompKind.gcc, some ["C:", "msys64", "mingw64", "bin"], "12.1"⟩ "x86-64-bmi2"
    ⟨true, false, true, true, false, true, true, "make.exe", 8⟩ rfl rfl rfl rfl

/-- C2 counterexample: the source download fails after the staging directory
was created; the run returns 1 with no cleanup attempt and the staging
directory still exists (lines 824-826 return without calling cleanup). -/
theorem c2_counterexample :
    (run "Linux" (some ⟨CompKind.clang, none, "clang 17"⟩) "x86-64"
        ⟨false, true, true, true, true, true, true, "make", 2⟩).stagingCreated = true ∧
    (run "Linux" (some ⟨CompKind.clang, none, "clang 17"⟩) "x86-64"
        ⟨false, true, true, true, true, true, true, "make", 2⟩).stagingExists = true ∧
    Ev.cleanupAttempt ∉ (run "Linux" (some ⟨CompKind.clang, none, "clang 17"⟩) "x86-64"
        ⟨false, true, true, true, true, true, true, "make", 2⟩).events ∧
    (run "Linux" (some ⟨CompKind.clang, none, "clang 17"⟩) "x86-64"
        ⟨false, true, true, true, true, true, true, "make", 2⟩).exitCode = 1 := by decide

/-- Amended C2: once the source download step has succeeded, every exit path
of the pipeline attempts staging-directory removal (and the directory is gone
exactly when the removal call succeeds); on the download/extraction-failure
path no removal is attempted and the staging directory persists. -/
theorem c2_cleanup_paths (sys : String) (sel : Cand) (arch : String) (o : BuildOracle) :
    (o.downloadOk = true →
      Ev.cleanupAttempt ∈ (run sys (some sel) arch o).events ∧
      (run sys (some sel) arch o).stagingExists = !o.rmtreeOk) ∧
    (o.downloadOk = false →
      Ev.cleanupAttempt ∉ (run sys (some sel) arch o).events ∧
      (run sys (some sel) arch o).stagingExists = true) := by
  constructor
  · intro h
    unfold run copy_executable cleanup
    by_cases hn : (o.netFetchOk || o.netContinue) = true
    · by_cases hc : o.compileOk = true
      · by_cases ha : o.artifactPresent = true
        · by_cases hcp : o.copyOk = true
          · simp [h, hn, hc, ha, hcp]
          · simp [h, hn, hc, ha, hcp]
        · simp [h, hn, hc, ha]
      · simp [h, hn, hc]
    · simp [h, hn]
  · intro h
    unfold run
    simp [h]

/-- Witness for amended C2: both the attempted-cleanup path and the
skipped-cleanup download-failure path, at concrete sessions. -/
theorem c2_cleanup_paths_witness :
    (Ev.cleanupAttempt ∈ (run "Linux" (some ⟨CompKind.gcc, none, "13"⟩) "x86-64"
        ⟨true, false, false, true, true, true, true, "make", 2⟩).events ∧
      (run "Linux" (some ⟨CompKind.gcc, none, "13"⟩) "x86-64"
        ⟨true, false, false, true, true, true, true, "make", 2⟩).stagingExists = !true) ∧
    (Ev.cleanupAttempt ∉ (run "Darwin" (some ⟨CompKind.clang, none, "15"⟩) "apple-silicon"
        ⟨false, true, true, true, true, true, false, "make", 2⟩).events ∧
      (run "Darwin" (some ⟨CompKind.clang, none, "15"⟩) "apple-silicon"
        ⟨false, true, true, true, true, true, false, "make", 2⟩).stagingExists = true) :=
  ⟨(c2_cleanup_paths "Linux" ⟨CompKind.gcc, none, "13"⟩ "x86-64"
      ⟨true, false, false, true, true, true, true, "make", 2⟩).1 rfl,
   (c2_cleanup_paths "Darwin" ⟨CompKind.clang, none, "15"⟩ "apple-silicon"
      ⟨false, true, true, true, true, true, false, "make", 2⟩).2 rfl⟩

/-- C7: when the locator finds no compiler and no manual override succeeds,
the run returns 1 and no staging directory was ever created (the staging
directory only comes into existence in the later download step). -/
theorem c7_no_compiler_exit_one (o : LocOracle) (inputs : List String)
    (sys arch : String) (bo : BuildOracle) (h : detect_compiler o inputs = none) :
    (run sys (detect_compiler o inputs) arch bo).exitCode = 1 ∧
    (run sys (detect_compiler o inputs) arch bo).stagingCreated = false ∧
    (run sys (detect_compiler o inputs) arch bo).stagingExists = false := by
  rw [h]
  exact ⟨rfl, rfl, rfl⟩

/-- Witness for C7: a Unix host with neither compiler on the search path. -/
theorem c7_no_compiler_exit_one_witness :
    (run "Linux" (detect_compiler ⟨"Linux", none, none, [], fun _ _ => none, none⟩ [])
        "x86-64" ⟨true, true, true, true, true, true, true, "make", 2⟩).exitCode = 1 ∧
    (run "Linux" (detect_compiler ⟨"Linux", none, none, [], fun _ _ => none, none⟩ [])
        "x86-64" ⟨true, true, true, true, true, true, true, "make", 2⟩).stagingCreated = false ∧
    (run "Linux" (detect_compiler ⟨"Linux", none, none, [], fun _ _ => none, none⟩ [])
        "x86-64" ⟨true, true, true, true, true, true, true, "make", 2⟩).stagingExists = false :=
  c7_no_compiler_exit_one ⟨"Linux", none, none, [], fun _ _ => none, none⟩ [] "Linux"
    "x86-64" ⟨true, true, true, true, true, true, true, "make", 2⟩ rfl

/-- C10: whenever the build step runs, its invocation carries
`COMP=compCommandOf sys kind`; the strip step carries the identical tag; and
the tag is `mingw` exactly for GCC on Windows, else the selected kind. -/
theorem c10_comp_tag (sys : String) (sel : Cand) (arch : String) (o : BuildOracle)
    (hd : o.downloadOk = true) (hn : (o.netFetchOk || o.netContinue) = true)
    (hc : o.compileOk = true) :
    (run sys (some sel) arch o).buildInvocation =
      some (buildArgs o.make o.jobs arch (compCommandOf sys sel.kind)) ∧
    (run sys (some sel) arch o).stripInvocation =
      some (stripArgs o.make (compCommandOf sys sel.kind)) ∧
    (buildArgs o.make o.jobs arch (compCommandOf sys sel.kind)).getLast? =
      some ("COMP=" ++ compCommandOf sys sel.kind) ∧
    (stripArgs o.make (compCommandOf sys sel.kind)).getLast? =
      some ("COMP=" ++ compCommandOf sys sel.kind) ∧
    (compCommandOf sys sel.kind = "mingw" ↔ sys = "Windows" ∧ sel.kind = CompKind.gcc) ∧
    (¬(sys = "Windows" ∧ sel.kind = CompKind.gcc) →
      compCommandOf sys sel.kind = kindStr sel.kind) := by
  refine ⟨?_, ?_, rfl, rfl, ?_, ?_⟩
  · unfold run
    simp [hd, hn, hc]
  · unfold run
    simp [hd, hn, hc]
  · unfold compCommandOf
    by_cases h : sys = "Windows" ∧ sel.kind = CompKind.gcc
    · simp [h]
    · rw [if_neg h]
      simp only [h, iff_false]
      cases hk : sel.kind <;> decide
  · intro h
    unfold compCommandOf
    rw [if_neg h]

/-- Witness for C10: a Windows GCC session gets the mingw tag on both the
build and the strip invocation. -/
theorem c10_comp_tag_witness :
    (run "Windows" (some ⟨CompKind.gcc, some ["C:", "msys64", "mingw64", "bin"], "12"⟩)
        "x86-64-avx2" ⟨true, true, true, true, true, true, true, "make.exe", 16⟩).buildInvocation =
      some (buildArgs "make.exe" 16 "x86-64-avx2" (compCommandOf "Windows" CompKind.gcc)) ∧
    (run "Windows" (some ⟨CompKind.gcc, some ["C:", "msys64", "mingw64", "bin"], "12"⟩)
        "x86-64-avx2" ⟨true, true, true, true, true, true, true, "make.exe", 16⟩).stripInvocation =
      some (stripArgs "make.exe" (compCommandOf "Windows" CompKind.gcc)) ∧
    (buildArgs "make.exe" 16 "x86-64-avx2" (compCommandOf "Windows" CompKind.gcc)).getLast? =
      some ("COMP=" ++ compCommandOf "Windows" CompKind.gcc) ∧
    (stripArgs "make.exe" (compCommandOf "Windows" CompKind.gcc)).getLast? =
      some ("COMP=" ++ compCommandOf "Windows" CompKind.gcc) ∧
    (compCommandOf "Windows" CompKind.gcc = "mingw" ↔
      "Windows" = "Windows" ∧ CompKind.gcc = CompKind.gcc) ∧
    (¬("Windows" = "Windows" ∧ CompKind.gcc = CompKind.gcc) →
      compCommandOf "Windows" CompKind.gcc = kindStr CompKind.gcc) :=
  c10_comp_tag "Windows" ⟨CompKind.gcc, some ["C:", "msys64", "mingw64", "bin"], "12"⟩
    "x86-64-avx2" ⟨true, true, true, true, true, true, true, "make.exe", 16⟩ rfl rfl rfl

/-! ## Helper lemmas: locator dedup -/

theorem root_none_beq (r : FsPath) (k : CompKind) (v : String) :
    ((⟨k, none, v⟩ : Cand).root == some r) = false := rfl

theorem countP_pathCands (o : LocOracle) (r : FsPath) :
    (pathCands o).countP (fun c => c.root == some r) = 0 := by
  unfold pathCands
  cases o.pathGxx <;> cases o.pathClangxx <;>
    simp [List.countP_append, List.countP_cons, root_none_beq]

theorem countP_tryAddScan (ch : FsPath → CompKind → Option String) (acc : List Cand)
    (bin : FsPath) (k : CompKind) (r : FsPath)
    (h : acc.countP (fun c => c.root == some r) ≤ 1) :
    (tryAddScan ch acc bin k).countP (fun c => c.root == some r) ≤ 1 := by
  rcases hch : ch bin k with _ | v
  · simpa [tryAddScan, hch] using h
  · have ht : tryAddScan ch acc bin k =
        if acc.any (fun c => c.root == some bin) then acc
        else acc ++ [⟨k, some bin, v⟩] := by
      simp only [tryAddScan, hch]
    rw [ht]
    by_cases hg : acc.any (fun c => c.root == some bin) = true
    · rw [if_pos hg]
      exact h
    · rw [if_neg hg]
      rw [List.countP_append]
      by_cases hbr : bin = r
      · subst hbr
        have hz : acc.countP (fun c => c.root == some bin) = 0 := by
          rw [List.countP_eq_zero]
          intro a ha hpa
          exact hg (List.any_eq_true.2 ⟨a, ha, hpa⟩)
        rw [hz]
        simp [List.countP_cons]
      · have hne : ((⟨k, some bin, v⟩ : Cand).root == some r) = false :=
          beq_eq_false_iff_ne.2 (by simp [hbr])
        simpa [List.countP_cons, hne] using h

theorem countP_scanRoot (ch : FsPath → CompKind → Option String) (acc : List Cand)
    (root : FsPath) (r : FsPath)
    (h : acc.countP (fun c => c.root == some r) ≤ 1) :
    (scanRoot ch acc root).countP (fun c => c.root == some r) ≤ 1 := by
  unfold scanRoot
  exact countP_tryAddScan _ _ _ _ _
    (countP_tryAddScan _ _ _ _ _ (countP_tryAddScan _ _ _ _ _ h))

theorem countP_foldlScan (ch : FsPath → CompKind → Option String) (roots : List FsPath)
    (r : FsPath) :
    ∀ acc : List Cand, acc.countP (fun c => c.root == some r) ≤ 1 →
      (roots.foldl (scanRoot ch) acc).countP (fun c => c.root == some r) ≤ 1 := by
  induction roots with
  | nil => intro acc h; exact h
  | cons root roots ih =>
    intro acc h
    exact ih _ (countP_scanRoot ch acc root r h)

theorem countP_manualScan (ch : FsPath → CompKind → Option String) (mr : FsPath)
    (r : FsPath) :
    (manualScan ch mr).countP (fun c => c.root == some r) ≤ 1 := by
  unfold manualScan
  rw [List.countP_append, List.countP_append]
  have hb : ∀ (p? : Option String) (k : CompKind) (bin : FsPath),
      List.countP (fun c => c.root == some r)
        (match p? with
         | none => ([] : List Cand)
         | some v => [⟨k, some bin, v⟩])
        = if bin = r then (match p? with | none => 0 | some _ => 1) else 0 := by
    intro p? k bin
    cases p? with
    | none => simp
    | some v =>
      by_cases hbr : bin = r
      · subst hbr
        simp [List.countP_cons]
      · have hne : ((⟨k, some bin, v⟩ : Cand).root == some r) = false :=
          beq_eq_false_iff_ne.2 (by simp [hbr])
        simp [List.countP_cons, hne, hbr]
  rw [hb, hb, hb]
  have hd12 : (mr ++ ["mingw64", "bin"]) ≠ (mr ++ ["ucrt64", "bin"]) :=
    fun h => absurd (List.append_cancel_left h) (by decide)
  have hd13 : (mr ++ ["mingw64", "bin"]) ≠ (mr ++ ["clang64", "bin"]) :=
    fun h => absurd (List.append_cancel_left h) (by decide)
  have hd23 : (mr ++ ["ucrt64", "bin"]) ≠ (mr ++ ["clang64", "bin"]) :=
    fun h => absurd (List.append_cancel_left h) (by decide)
  by_cases h1 : (mr ++ ["mingw64", "bin"]) = r
  · by_cases h2 : (mr ++ ["ucrt64", "bin"]) = r
    · exact absurd (h1.trans h2.symm) hd12
    · by_cases h3 : (mr ++ ["clang64", "bin"]) = r
      · exact absurd (h1.trans h3.symm) hd13
      · rw [if_pos h1, if_neg h2, if_neg h3]
        cases ch (mr ++ ["mingw64", "bin"]) CompKind.gcc <;> simp
  · by_cases h2 : (mr ++ ["ucrt64", "bin"]) = r
    · by_cases h3 : (mr ++ ["clang64", "bin"]) = r
      · exact absurd (h2.trans h3.symm) hd23
      · rw [if_neg h1, if_pos h2, if_neg h3]
        cases ch (mr ++ ["ucrt64", "bin"]) CompKind.gcc <;> simp
    · by_cases h3 : (mr ++ ["clang64", "bin"]) = r
      · rw [if_neg h1, if_neg h2, if_pos h3]
        cases ch (mr ++ ["clang64", "bin"]) CompKind.clang <;> simp
      · rw [if_neg h1, if_neg h2, if_neg h3]
        simp

/-- C6: for every locator outcome and every resolved install root, the
candidate list contains at most one entry with that root — the scan dedup
guard keeps a second candidate of an already-listed root out, and the three
manual-override sub-environments have pairwise distinct roots. -/
theorem c6_locator_dedup (o : LocOracle) (r : FsPath) :
    (candidates o).countP (fun c => c.root == some r) ≤ 1 := by
  unfold candidates
  by_cases hw : o.system = "Windows"
  · rw [if_pos hw]
    by_cases he : (o.msysRoots.foldl (scanRoot o.checkCompiler) (pathCands o)).isEmpty = true
    · rw [if_pos he]
      cases o.manualChoice with
      | none => simp
      | some mr => exact countP_manualScan _ _ _
    · rw [if_neg he]
      exact countP_foldlScan _ _ _ _ (by rw [countP_pathCands]; omega)
  · rw [if_neg hw]
    rw [countP_pathCands]
    omega
